import Mathlib

/-!
Shallow embedding of the Ondsel Lens addon core (APIClient.py, WorkSpace.py):
the connection-state machine, the HTTP transport verbs with their
status-code-to-exception mapping, the authentication gate, the Go-style
result-wrapping helper, the workspace synchronization refresh, and the
`APIHelper.filterFilter` value cleaner.  Python exceptions are modelled with
`Except`/`Option`, mutable client state by explicit state passing, and the
network by explicit outcome parameters.
-/

namespace OndselLens

/-- A Python/JSON-like value: any nesting of dicts, lists and scalars
(`None`, booleans, integers, strings). -/
inductive Value where
  | vnone : Value
  | vbool : Bool → Value
  | vint : Int → Value
  | vstr : String → Value
  | vdict : List (String × Value) → Value
  | vlist : List Value → Value
deriving Repr, Inhabited

/-- The Python test `v is None`. -/
def isNone : Value → Bool
  | .vnone => true
  | _ => false

/-- Python truthiness `bool(v)` of a value: `None`, `False`, `0`, the empty
string, the empty dict and the empty list are falsy. -/
def truthy : Value → Bool
  | .vnone => false
  | .vbool b => b
  | .vint n => n != 0
  | .vstr s => s != ""
  | .vdict entries => !entries.isEmpty
  | .vlist items => !items.isEmpty

mutual

/-- `APIHelper.filterFilter`: recursively drops dict entries and list items
whose value is `None` or whose filtered value is falsy; scalars are returned
unchanged. -/
def filterFilter : Value → Value
  | .vdict entries => .vdict (filterEntries entries)
  | .vlist items => .vlist (filterItems items)
  | v => v

/-- The dict comprehension of `filterFilter`: keep `(key, filterFilter value)`
when `value is not None and filterFilter(value)` is truthy. -/
def filterEntries : List (String × Value) → List (String × Value)
  | [] => []
  | (k, v) :: rest =>
    if !isNone v && truthy (filterFilter v) then
      (k, filterFilter v) :: filterEntries rest
    else
      filterEntries rest

/-- The list comprehension of `filterFilter`: keep `filterFilter item` when
`item is not None and filterFilter(item)` is truthy. -/
def filterItems : List Value → List Value
  | [] => []
  | v :: rest =>
    if !isNone v && truthy (filterFilter v) then
      filterFilter v :: filterItems rest
    else
      filterItems rest

end

mutual

/-- The value holds no `None`-valued dict entry or list item at any nesting
level. -/
def noNone : Value → Bool
  | .vdict entries => entriesNoNone entries
  | .vlist items => itemsNoNone items
  | _ => true

/-- `noNone` over the entries of a dict. -/
def entriesNoNone : List (String × Value) → Bool
  | [] => true
  | (_, v) :: rest => !isNone v && noNone v && entriesNoNone rest

/-- `noNone` over the items of a list. -/
def itemsNoNone : List Value → Bool
  | [] => true
  | v :: rest => !isNone v && noNone v && itemsNoNone rest

end

theorem truthy_not_isNone {v : Value} (h : truthy v = true) : isNone v = false := by
  cases v <;> simp_all [truthy, isNone]

mutual

theorem filterFilter_idem : (v : Value) →
    filterFilter (filterFilter v) = filterFilter v
  | .vnone => rfl
  | .vbool _ => rfl
  | .vint _ => rfl
  | .vstr _ => rfl
  | .vdict entries => by
    simp only [filterFilter]
    rw [filterEntries_idem entries]
  | .vlist items => by
    simp only [filterFilter]
    rw [filterItems_idem items]

theorem filterEntries_idem : (l : List (String × Value)) →
    filterEntries (filterEntries l) = filterEntries l
  | [] => rfl
  | (k, v) :: rest => by
    by_cases h : (!isNone v && truthy (filterFilter v)) = true
    · have hkeep : (!isNone (filterFilter v) &&
          truthy (filterFilter (filterFilter v))) = true := by
        have ht : truthy (filterFilter v) = true := by
          simp only [Bool.and_eq_true] at h
          exact h.2
        rw [filterFilter_idem v, truthy_not_isNone ht]
        simp [ht]
      rw [filterEntries, if_pos h, filterEntries, if_pos hkeep,
        filterFilter_idem v, filterEntries_idem rest]
    · rw [filterEntries, if_neg h, filterEntries_idem rest]

theorem filterItems_idem : (l : List Value) →
    filterItems (filterItems l) = filterItems l
  | [] => rfl
  | v :: rest => by
    by_cases h : (!isNone v && truthy (filterFilter v)) = true
    · have hkeep : (!isNone (filterFilter v) &&
          truthy (filterFilter (filterFilter v))) = true := by
        have ht : truthy (filterFilter v) = true := by
          simp only [Bool.and_eq_true] at h
          exact h.2
        rw [filterFilter_idem v, truthy_not_isNone ht]
        simp [ht]
      rw [filterItems, if_pos h, filterItems, if_pos hkeep,
        filterFilter_idem v, filterItems_idem rest]
    · rw [filterItems, if_neg h, filterItems_idem rest]

end

mutual

theorem noNone_filterFilter : (v : Value) → noNone (filterFilter v) = true
  | .vnone => rfl
  | .vbool _ => rfl
  | .vint _ => rfl
  | .vstr _ => rfl
  | .vdict entries => by
    simp only [filterFilter, noNone]
    exact entriesNoNone_filterEntries entries
  | .vlist items => by
    simp only [filterFilter, noNone]
    exact itemsNoNone_filterItems items

theorem entriesNoNone_filterEntries : (l : List (String × Value)) →
    entriesNoNone (filterEntries l) = true
  | [] => rfl
  | (k, v) :: rest => by
    by_cases h : (!isNone v && truthy (filterFilter v)) = true
    · have ht : truthy (filterFilter v) = true := by
        simp only [Bool.and_eq_true] at h
        exact h.2
      rw [filterEntries, if_pos h, entriesNoNone,
        entriesNoNone_filterEntries rest, noNone_filterFilter v,
        truthy_not_isNone ht]
      rfl
    · rw [filterEntries, if_neg h, entriesNoNone_filterEntries rest]

theorem itemsNoNone_filterItems : (l : List Value) →
    itemsNoNone (filterItems l) = true
  | [] => rfl
  | v :: rest => by
    by_cases h : (!isNone v && truthy (filterFilter v)) = true
    · have ht : truthy (filterFilter v) = true := by
        simp only [Bool.and_eq_true] at h
        exact h.2
      rw [filterItems, if_pos h, itemsNoNone,
        itemsNoNone_filterItems rest, noNone_filterFilter v,
        truthy_not_isNone ht]
      rfl
    · rw [filterItems, if_neg h, itemsNoNone_filterItems rest]

end

/-- Connection status of the client (`ConnStatus`). -/
inductive ConnStatus where
  | LOGGED_OUT
  | CONNECTED
  | DISCONNECTED
deriving Repr, DecidableEq

/-- The `APIClient` exception taxonomy: the leaf subclasses of
`APIClientException`, the base class itself, and the generic Python
`Exception`.  `notFound` and `request` carry the message string built at the
raise site. -/
inductive PyExc where
  | offline
  | loggedOut
  | authn
  | notFound (msg : String)
  | request (msg : String)
  | connErr
  | tierErr
  | baseExc
  | genericExc
deriving Repr, DecidableEq

/-- The mutable fields of `APIClient` that the state machine reads and
writes.  The user record is a JSON dict. -/
structure ClientState where
  email : Option String
  password : Option String
  access_token : Option String
  user : Option Value
  status : ConnStatus
deriving Repr

/-- Python truthiness test `not x` on an optional string field: `None` and
the empty string are falsy. -/
def optStrFalsy : Option String → Bool
  | none => true
  | some s => s == ""

/-- `APIClient.is_logged_in`: both the access token and the user record are
not `None` (identity checks, not truthiness). -/
def is_logged_in (st : ClientState) : Bool :=
  st.access_token.isSome && st.user.isSome

/-- `APIClient.__init__`: without a token the stored credentials are kept and
the status is LOGGED_OUT; with a token the credentials are dropped, the given
user record (possibly `None`, the parameter default) is kept and the status
is CONNECTED. -/
def clientInit (email password access_token : Option String)
    (user : Option Value) : ClientState :=
  match access_token with
  | none =>
    { email := email, password := password, access_token := none,
      user := none, status := .LOGGED_OUT }
  | some tok =>
    { email := none, password := none, access_token := some tok,
      user := user, status := .CONNECTED }

/-- `APIClient.logout`: clears credentials, token and user, and moves to
LOGGED_OUT. -/
def logoutRun (st : ClientState) : ClientState :=
  { st with email := none, password := none, access_token := none,
            user := none, status := .LOGGED_OUT }

/-- Outcome of the probe `requests.get(base_url)` inside `_confirm_online`:
the request returned (any status code), or it raised a `RequestException`
whose `response` attribute is `None`, or one whose `response` is attached. -/
inductive ProbeOutcome where
  | ok
  | errNoResp
  | errResp
deriving Repr, DecidableEq

/-- `APIClient._confirm_online`: on a successful probe the status becomes
CONNECTED when logged in and LOGGED_OUT otherwise; on a probe error with no
response attached it becomes DISCONNECTED; an error with a response leaves
the status unchanged. -/
def confirmOnline (st : ClientState) (probe : ProbeOutcome) : ClientState :=
  match probe with
  | .ok =>
    if is_logged_in st then { st with status := .CONNECTED }
    else { st with status := .LOGGED_OUT }
  | .errNoResp => { st with status := .DISCONNECTED }
  | .errResp => st

/-- `APIClient.getStatus`: runs `_confirm_online` and then returns
`self.status`.  The third component counts the probes performed (always 1). -/
def getStatusRun (st : ClientState) (probe : ProbeOutcome) :
    ConnStatus × ClientState × Nat :=
  let st1 := confirmOnline st probe
  (st1.status, st1, 1)

/-- `APIClient._properly_throw_if_offline`: when the current status is
DISCONNECTED, re-probe once; if still DISCONNECTED raise the offline
exception.  Returns the raised exception (if any), the resulting state, and
the number of probes performed. -/
def properlyThrowRun (st : ClientState) (probe : ProbeOutcome) :
    Option PyExc × ClientState × Nat :=
  if st.status = ConnStatus.DISCONNECTED then
    if (confirmOnline st probe).status = ConnStatus.DISCONNECTED then
      (some .offline, confirmOnline st probe, 1)
    else (none, confirmOnline st probe, 1)
  else (none, st, 0)

/-- `APIClient._confirm_online_after_exception`: probe once; raise the
offline exception when the resulting status is DISCONNECTED. -/
def confirmAfterExcRun (st : ClientState) (probe : ProbeOutcome) :
    Option PyExc × ClientState :=
  if (confirmOnline st probe).status = ConnStatus.DISCONNECTED then
    (some .offline, confirmOnline st probe)
  else (none, confirmOnline st probe)

/-- An HTTP response as the verb handlers read it: the status code, the
`message` field of the JSON body (read on the generic failure path), and the
parsed JSON body returned on success. -/
structure Resp where
  status_code : Nat
  message : String
  json : Value
deriving Repr

/-- `requests.codes.ok`. -/
def okCode : Nat := 200

/-- `requests.codes.created`. -/
def createdCode : Nat := 201

/-- `requests.codes.unauthorized`. -/
def unauthorizedCode : Nat := 401

/-- `requests.codes.not_found`. -/
def notFoundCode : Nat := 404

/-- The message of `APIClient._raiseException`: the status code followed by
the server-supplied `message` field. -/
def raiseExceptionMsg (r : Resp) : String :=
  "API request failed with status code " ++ toString r.status_code ++ ": "
    ++ r.message

/-- Status-code handling of `_request` (GET): 200 → body, 401 →
authentication error, 404 → not-found carrying the endpoint, anything else →
generic request error. -/
def requestHandle (endpoint : String) (r : Resp) : Except PyExc Value :=
  if r.status_code = okCode then .ok r.json
  else if r.status_code = unauthorizedCode then .error .authn
  else if r.status_code = notFoundCode then
    .error (.notFound ("item not found " ++ endpoint))
  else .error (.request (raiseExceptionMsg r))

/-- Status-code handling of `_post`: 201/200 → body, 401 → authentication
error, 404 → not-found, anything else → generic request error. -/
def postHandle (endpoint : String) (r : Resp) : Except PyExc Value :=
  if r.status_code = createdCode ∨ r.status_code = okCode then .ok r.json
  else if r.status_code = unauthorizedCode then .error .authn
  else if r.status_code = notFoundCode then
    .error (.notFound ("item not found " ++ endpoint))
  else .error (.request (raiseExceptionMsg r))

/-- Status-code handling of `_update` (PATCH): 201/200 → body, 404 →
not-found, anything else (401 included) → generic request error. -/
def updateHandle (endpoint : String) (r : Resp) : Except PyExc Value :=
  if r.status_code = createdCode ∨ r.status_code = okCode then .ok r.json
  else if r.status_code = notFoundCode then
    .error (.notFound ("item not found " ++ endpoint))
  else .error (.request (raiseExceptionMsg r))

/-- Status-code handling of `_delete`: 200 → body, 404 → not-found, anything
else (401 included) → generic request error. -/
def deleteHandle (endpoint : String) (r : Resp) : Except PyExc Value :=
  if r.status_code = okCode then .ok r.json
  else if r.status_code = notFoundCode then
    .error (.notFound ("item not found " ++ endpoint))
  else .error (.request (raiseExceptionMsg r))

/-- Result of running one transport verb: the returned body or raised
exception, the resulting client state, the number of connectivity probes
performed, and the number of network requests issued for the verb. -/
structure VerbOut where
  result : Except PyExc Value
  state : ClientState
  probes : Nat
  requestsSent : Nat
deriving Repr

/-- `APIClient._request` (GET): offline precheck, then the network call
(`net = none` models `requests.get` raising a `RequestException`), then the
status-code handling. -/
def requestRun (st : ClientState) (endpoint : String) (net : Option Resp)
    (probe reprobe : ProbeOutcome) : VerbOut :=
  match properlyThrowRun st probe with
  | (some e, st1, p) => ⟨.error e, st1, p, 0⟩
  | (none, st1, p) =>
    match net with
    | none =>
      match confirmAfterExcRun st1 reprobe with
      | (some e, st2) => ⟨.error e, st2, p + 1, 1⟩
      | (none, st2) => ⟨.error .connErr, st2, p + 1, 1⟩
    | some r => ⟨requestHandle endpoint r, st1, p, 1⟩

/-- `APIClient._post`: offline precheck, then the network call, then the
status-code handling. -/
def postRun (st : ClientState) (endpoint : String) (net : Option Resp)
    (probe reprobe : ProbeOutcome) : VerbOut :=
  match properlyThrowRun st probe with
  | (some e, st1, p) => ⟨.error e, st1, p, 0⟩
  | (none, st1, p) =>
    match net with
    | none =>
      match confirmAfterExcRun st1 reprobe with
      | (some e, st2) => ⟨.error e, st2, p + 1, 1⟩
      | (none, st2) => ⟨.error .connErr, st2, p + 1, 1⟩
    | some r => ⟨postHandle endpoint r, st1, p, 1⟩

/-- `APIClient._update` (PATCH): offline precheck, then the network call,
then the status-code handling. -/
def updateRun (st : ClientState) (endpoint : String) (net : Option Resp)
    (probe reprobe : ProbeOutcome) : VerbOut :=
  match properlyThrowRun st probe with
  | (some e, st1, p) => ⟨.error e, st1, p, 0⟩
  | (none, st1, p) =>
    match net with
    | none =>
      match confirmAfterExcRun st1 reprobe with
      | (some e, st2) => ⟨.error e, st2, p + 1, 1⟩
      | (none, st2) => ⟨.error .connErr, st2, p + 1, 1⟩
    | some r => ⟨updateHandle endpoint r, st1, p, 1⟩

/-- `APIClient._delete`: unlike `_request`, `_post` and `_update` there is no
`_properly_throw_if_offline` precheck — the network request is issued
directly. -/
def deleteRun (st : ClientState) (endpoint : String) (net : Option Resp)
    (reprobe : ProbeOutcome) : VerbOut :=
  match net with
  | none =>
    match confirmAfterExcRun st reprobe with
    | (some e, st2) => ⟨.error e, st2, 1, 1⟩
    | (none, st2) => ⟨.error .connErr, st2, 1, 1⟩
  | some r => ⟨deleteHandle endpoint r, st, 0, 1⟩

/-- The body returned by a successful authentication POST: the
`accessToken` and `user` fields. -/
structure AuthData where
  accessToken : String
  user : Value
deriving Repr

/-- Outcome of the `_post("authentication", ...)` network interaction inside
`authenticate`: a success body, an HTTP error status (the exception `_post`
raised for it), or a transport-level failure of `requests.post`. -/
inductive PostNet where
  | ok (d : AuthData)
  | httpErr (e : PyExc)
  | netErr
deriving Repr

/-- Result of `APIClient.authenticate`: the raised exception (if any), the
resulting state, and the number of authentication POST requests actually
sent to the network. -/
structure AuthOut where
  exc : Option PyExc
  state : ClientState
  posts : Nat
deriving Repr

/-- The network part of the authentication POST (after the offline
precheck): on success store the token and user record and move to CONNECTED;
an HTTP error propagates; a transport failure re-probes and raises offline
or the connection error. -/
def authPostPhase (st1 : ClientState) (net : PostNet)
    (reprobe : ProbeOutcome) : AuthOut :=
  match net with
  | .ok d =>
    ⟨none, { st1 with access_token := some d.accessToken,
                      user := some d.user, status := .CONNECTED }, 1⟩
  | .httpErr e => ⟨some e, st1, 1⟩
  | .netErr =>
    match confirmAfterExcRun st1 reprobe with
    | (some e, st2) => ⟨some e, st2, 1⟩
    | (none, st2) => ⟨some .connErr, st2, 1⟩

/-- `APIClient.authenticate`: raise `APIClientLoggedOutException` when no
email is stored, before any query is sent; otherwise run
`_post("authentication", ...)` (offline precheck included) and on success
store the token and user record and move to CONNECTED. -/
def authenticateRun (st : ClientState) (net : PostNet)
    (probe reprobe : ProbeOutcome) : AuthOut :=
  if optStrFalsy st.email then
    ⟨some .loggedOut, st, 0⟩
  else
    match properlyThrowRun st probe with
    | (some e, st1, _) => ⟨some e, st1, 0⟩
    | (none, st1, _) => authPostPhase st1 net reprobe

/-- Result of running a domain operation through the `authRequired`
decorator: the operation result or raised exception, the resulting state,
the number of `authenticate` invocations, the number of authentication POST
requests sent, and whether the wrapped operation body ran. -/
structure AuthRequiredOut where
  result : Except PyExc Value
  state : ClientState
  authAttempts : Nat
  authPosts : Nat
  opInvoked : Bool
deriving Repr

/-- The `authRequired` decorator: when no access token is held (Python
truthiness), call `authenticate` once, then run the wrapped operation; an
exception from `authenticate` propagates and the operation never runs. -/
def authRequiredRun (st : ClientState) (net : PostNet)
    (probe reprobe : ProbeOutcome)
    (op : ClientState → Except PyExc Value × ClientState) : AuthRequiredOut :=
  if optStrFalsy st.access_token then
    let a := authenticateRun st net probe reprobe
    match a.exc with
    | some e => ⟨.error e, a.state, 1, a.posts, false⟩
    | none =>
      let r := op a.state
      ⟨r.1, r.2, 1, a.posts, true⟩
  else
    let r := op st
    ⟨r.1, r.2, 0, 0, true⟩

/-- The result enum of the result-wrapping helper (`APICallResult`). -/
inductive APICallResult where
  | OK
  | DISCONNECTED
  | NOT_LOGGED_IN
  | PERMISSION_ISSUE
  | GENERAL_ERROR
deriving Repr, DecidableEq

/-- `fancy_handle`: run the wrapped function and classify the exception it
raises (`none` means the function returned normally).  The match mirrors the
except-clause order of the source; every exception class is covered, so the
helper is total and never re-raises. -/
def fancy_handle (outcome : Option PyExc) : APICallResult :=
  match outcome with
  | none => .OK
  | some .offline => .DISCONNECTED
  | some .loggedOut => .NOT_LOGGED_IN
  | some (.request _) => .GENERAL_ERROR
  | some .authn => .PERMISSION_ISSUE
  | some (.notFound _) => .GENERAL_ERROR
  | some .connErr => .GENERAL_ERROR
  | some .tierErr => .GENERAL_ERROR
  | some .baseExc => .GENERAL_ERROR
  | some .genericExc => .GENERAL_ERROR

/-- `APIClient.fancy_auth_call`: run a get-like method (modelled by its
outcome), classify with `fancy_handle`, and null out the answer whenever the
response is not OK. -/
def fancy_auth_call {α : Type} (op : Except PyExc α) : Option α × APICallResult :=
  let answer : Option α :=
    match op with
    | .ok v => some v
    | .error _ => none
  let response : APICallResult :=
    fancy_handle (match op with | .ok _ => none | .error e => some e)
  if response ≠ APICallResult.OK then (none, response) else (answer, response)

/-- Runtime errors raised inside `ServerWorkspaceModel.refreshModel`. -/
inductive PyError where
  | attributeError (msg : String)
  | typeError (msg : String)
deriving Repr, DecidableEq

/-- One entry of the workspace directory listing on disk, with the data
`refreshModel` and `getLocalFiles` read: the basename, whether it is a
directory, its creation and modification times, and whether
`Utils.isOpenableByFreeCAD` (an extension allow-list, external collaborator)
accepts the basename. -/
structure LocalFile where
  name : String
  isDir : Bool
  ctime : Int
  mtime : Int
  openable : Bool
deriving Repr, DecidableEq

/-- `Utils.joinPath` (external helper): joins two path segments. -/
def joinPath (a b : String) : String := a ++ "/" ++ b

/-- The `FileItem` class of WorkSpace.py.  `created_at`/`updated_at` receive
the empty string for folders and timestamps for files; that union is
modelled as `Option Int` with `none` for the folder case. -/
structure FileItem where
  name : String
  path : String
  is_folder : Bool
  versions : List String
  current_version : String
  created_at : Option Int
  updated_at : Option Int
  status : String
deriving Repr, DecidableEq

/-- `WorkSpaceModel.getLocalFiles`: first every directory of the listing (so
folders appear first), then every entry whose basename is openable by
FreeCAD, as "Untracked" file items. -/
def getLocalFiles (root : String) (listing : List LocalFile) : List FileItem :=
  (listing.filter (fun f => f.isDir)).map
    (fun f => ⟨f.name, root, true, [], "", none, none, ""⟩)
  ++ (listing.filter (fun f => f.openable)).map
    (fun f => ⟨f.name, joinPath root f.name, false, [f.name], f.name,
               some f.ctime, some f.mtime, "Untracked"⟩)

/-- A remote model record as returned by `getModels` (a JSON dict), with the
fields `refreshModel` reads. -/
structure RModel where
  custFileName : String
  updatedAt : Int
deriving Repr, DecidableEq

/-- A remote model dict after the refresh loop has set its `"status"` key. -/
structure SModel where
  custFileName : String
  updatedAt : Int
  status : String
deriving Repr, DecidableEq

/-- `os.path.isfile` plus `os.path.getmtime` for the expected local path of a
remote model: the modification time of the non-directory listing entry with
that name, if any. -/
def mtimeOf (listing : List LocalFile) (name : String) : Option Int :=
  match listing.find? (fun f => f.name == name && !f.isDir) with
  | some f => some f.mtime
  | none => none

/-- The remote phase of `ServerWorkspaceModel.refreshModel`: each model
absent locally gets status "ToDownload"; for a model present locally the
remote-newer case gets "ToDownload" and the equal case "Synced", but the
local-newer branch executes `model.status = "ToUpload"` — attribute
assignment on a dict — which raises `AttributeError` in Python.  Every
successfully classified model is appended to the rebuilt `files` list. -/
def processRemoteModels (models : List RModel) (listing : List LocalFile) :
    Except PyError (List SModel) :=
  match models with
  | [] => .ok []
  | m :: rest =>
    match mtimeOf listing m.custFileName with
    | none =>
      (processRemoteModels rest listing).map
        (fun fs => ⟨m.custFileName, m.updatedAt, "ToDownload"⟩ :: fs)
    | some lastUpdate =>
      if m.updatedAt < lastUpdate then
        .error (.attributeError "dict object has no attribute status")
      else if m.updatedAt > lastUpdate then
        (processRemoteModels rest listing).map
          (fun fs => ⟨m.custFileName, m.updatedAt, "ToDownload"⟩ :: fs)
      else
        (processRemoteModels rest listing).map
          (fun fs => ⟨m.custFileName, m.updatedAt, "Synced"⟩ :: fs)

/-- After the candidate phase the Python `models` list holds a mixture of
model dicts and appended `FileItem` objects. -/
inductive MEntry where
  | rmodel (m : SModel)
  | fitem (f : FileItem)
deriving Repr, DecidableEq

/-- The subscript `model["custFileName"]` on an element of the mixed
`models` list: a `FileItem` is not subscriptable, so Python raises
`TypeError` there. -/
def custFileNameOf : MEntry → Except PyError String
  | .rmodel m => .ok m.custFileName
  | .fitem _ => .error (.typeError "FileItem object is not subscriptable")

/-- The inner `for model in models` search of the candidate phase: does some
entry carry the candidate name? -/
def findName (entries : List MEntry) (name : String) : Except PyError Bool :=
  match entries with
  | [] => .ok false
  | e :: rest =>
    match custFileNameOf e with
    | .error err => .error err
    | .ok c => if c == name then .ok true else findName rest name

/-- The candidate phase of `refreshModel`: every non-folder local candidate
matched by no entry of `models` gets status "ToUpload" and is appended to
`models` — not to the `files` list that the method later assigns to
`self.files`. -/
def addCandidates (entries : List MEntry) (cands : List FileItem) :
    Except PyError (List MEntry) :=
  match cands with
  | [] => .ok entries
  | c :: rest =>
    if c.is_folder then addCandidates entries rest
    else
      match findName entries c.name with
      | .error err => .error err
      | .ok true => addCandidates entries rest
      | .ok false =>
        addCandidates (entries ++ [.fitem { c with status := "ToUpload" }]) rest

/-- `ServerWorkspaceModel.refreshModel`: the remote phase builds `files`
(assigned to `self.files`, the list the UI reads) and the candidate phase
appends local-only files to `models` (which the method then discards).  The
`models` list entering the candidate phase holds exactly the dicts that the
remote phase classified, in order. -/
def refreshModelRun (models : List RModel) (root : String)
    (listing : List LocalFile) : Except PyError (List SModel × List MEntry) :=
  match processRemoteModels models listing with
  | .error e => .error e
  | .ok files =>
    match addCandidates (files.map MEntry.rmodel) (getLocalFiles root listing) with
    | .error e => .error e
    | .ok ms => .ok (files, ms)

/-- Result of the fetch phase of `get_file_version_details`: the returned
body or raised exception, and the network GET attempts issued in order
(`true` = with the `publicInfo` parameter, `false` = authenticated fetch
without it). -/
structure FetchOut where
  result : Except PyExc Value
  attempts : List Bool
deriving Repr

/-- The fetch phase of `APIClient.get_file_version_details`: with
`public=True` the publicInfo query is tried first and the single fallback —
an authenticated query for the same resource without the parameter — happens
only when that attempt raises `APIClientRequestException`; any other
exception (the 404-driven `APIClientNotFoundException` included) propagates
with no fallback. -/
def getFileVersionDetailsFetch (isPublic : Bool) (pubResp privResp : Resp)
    (fileId : String) : FetchOut :=
  let endpoint := "file/" ++ fileId
  if isPublic then
    match requestHandle endpoint pubResp with
    | .ok v => ⟨.ok v, [true]⟩
    | .error (.request _) => ⟨requestHandle endpoint privResp, [true, false]⟩
    | .error e => ⟨.error e, [true]⟩
  else
    ⟨requestHandle endpoint privResp, [false]⟩

/-- The inductive invariant of the connection state machine: a held token
implies a held user record, CONNECTED implies a held token, and LOGGED_OUT
implies no token. -/
def stateInv (st : ClientState) : Prop :=
  (st.access_token.isSome = true → st.user.isSome = true) ∧
  (st.status = ConnStatus.CONNECTED → st.access_token.isSome = true) ∧
  (st.status = ConnStatus.LOGGED_OUT → st.access_token = none)

theorem stateInv_confirmOnline (st : ClientState) (p : ProbeOutcome)
    (h : stateInv st) : stateInv (confirmOnline st p) := by
  obtain ⟨h1, h2, h3⟩ := h
  cases p
  · by_cases hl : is_logged_in st = true
    · simp only [confirmOnline, hl, if_pos]
      refine ⟨h1, fun _ => ?_, fun hLO => by simp at hLO⟩
      simp only [is_logged_in, Bool.and_eq_true] at hl
      exact hl.1
    · simp only [confirmOnline, hl, if_neg, Bool.false_eq_true,
        not_false_eq_true]
      refine ⟨h1, fun hC => by simp at hC, fun _ => ?_⟩
      simp only [is_logged_in, Bool.and_eq_true, not_and_or] at hl
      rcases Option.eq_none_or_eq_some st.access_token with hn | ⟨t, hs⟩
      · exact hn
      · exfalso
        have htok : st.access_token.isSome = true := by simp [hs]
        rcases hl with hl | hl
        · exact hl htok
        · exact hl (h1 htok)
  · exact ⟨h1, fun hC => by simp [confirmOnline] at hC,
      fun hLO => by simp [confirmOnline] at hLO⟩
  · exact ⟨h1, h2, h3⟩

theorem stateInv_properlyThrow (st : ClientState) (p : ProbeOutcome)
    (h : stateInv st) : stateInv (properlyThrowRun st p).2.1 := by
  unfold properlyThrowRun
  split
  · split
    · exact stateInv_confirmOnline st p h
    · exact stateInv_confirmOnline st p h
  · exact h

theorem stateInv_confirmAfter (st : ClientState) (p : ProbeOutcome)
    (h : stateInv st) : stateInv (confirmAfterExcRun st p).2 := by
  unfold confirmAfterExcRun
  split
  · exact stateInv_confirmOnline st p h
  · exact stateInv_confirmOnline st p h

theorem stateInv_authPostPhase (st1 : ClientState) (net : PostNet)
    (rp : ProbeOutcome) (h : stateInv st1) :
    stateInv (authPostPhase st1 net rp).state := by
  unfold authPostPhase
  cases net
  · exact ⟨fun _ => rfl, fun _ => rfl, fun hLO => by simp at hLO⟩
  · exact h
  · rcases hCA : confirmAfterExcRun st1 rp with ⟨oe2, st2⟩
    have hInv2 : stateInv st2 := by
      have hx := stateInv_confirmAfter st1 rp h
      rw [hCA] at hx
      exact hx
    cases oe2
    · exact hInv2
    · exact hInv2

theorem stateInv_authenticate (st : ClientState) (net : PostNet)
    (p rp : ProbeOutcome) (h : stateInv st) :
    stateInv (authenticateRun st net p rp).state := by
  unfold authenticateRun
  split
  · exact h
  · rcases hPT : properlyThrowRun st p with ⟨oe, st1, n⟩
    have hInv1 : stateInv st1 := by
      have hx := stateInv_properlyThrow st p h
      rw [hPT] at hx
      exact hx
    cases oe
    · exact stateInv_authPostPhase st1 net rp hInv1
    · exact hInv1

theorem stateInv_logout (st : ClientState) : stateInv (logoutRun st) := by
  refine ⟨fun hs => ?_, fun hc => ?_, fun _ => rfl⟩
  · simp [logoutRun] at hs
  · simp [logoutRun] at hc

theorem stateInv_clientInit (email password tok : Option String)
    (user : Option Value) (hgood : tok = none ∨ user ≠ none) :
    stateInv (clientInit email password tok user) := by
  cases tok
  · exact ⟨fun hs => by simp [clientInit] at hs, fun hc => by simp [clientInit] at hc,
      fun _ => rfl⟩
  · rcases hgood with hg | hg
    · simp at hg
    · refine ⟨fun _ => ?_, fun _ => rfl, fun hLO => by simp [clientInit] at hLO⟩
      simpa [clientInit, Option.isSome_iff_ne_none] using hg

/-- The reachable client states: constructed (with the amendment that a user
record accompanies any supplied access token), and closed under logout,
online probes and the authentication flow. -/
inductive ReachableG : ClientState → Prop where
  | init (email password tok : Option String) (user : Option Value)
      (hgood : tok = none ∨ user ≠ none) :
      ReachableG (clientInit email password tok user)
  | logout (st : ClientState) : ReachableG st → ReachableG (logoutRun st)
  | probe (st : ClientState) (p : ProbeOutcome) :
      ReachableG st → ReachableG (confirmOnline st p)
  | auth (st : ClientState) (net : PostNet) (p rp : ProbeOutcome) :
      ReachableG st → ReachableG (authenticateRun st net p rp).state

theorem stateInv_of_reachable {st : ClientState} (h : ReachableG st) :
    stateInv st := by
  induction h with
  | init email password tok user hgood =>
    exact stateInv_clientInit email password tok user hgood
  | logout st _ _ => exact stateInv_logout st
  | probe st p _ ih => exact stateInv_confirmOnline st p ih
  | auth st net p rp _ ih => exact stateInv_authenticate st net p rp ih

/-- C10: `APIHelper.filterFilter` is idempotent — applying it to its own
output returns that output unchanged — and its output contains no
`None`-valued dict entry or list item at any nesting level. -/
theorem c10_filterFilter_idempotent_and_none_free :
    (∀ v : Value, filterFilter (filterFilter v) = filterFilter v) ∧
    (∀ v : Value, noNone (filterFilter v) = true) :=
  ⟨filterFilter_idem, noNone_filterFilter⟩

/-- A logged-in client whose last connectivity check failed. -/
def sampleDisconnected : ClientState :=
  ⟨none, none, some "tok", some (Value.vdict []), ConnStatus.DISCONNECTED⟩

/-- A logged-in, connected client. -/
def sampleConnected : ClientState :=
  ⟨none, none, some "tok", some (Value.vdict []), ConnStatus.CONNECTED⟩

/-- C1 (code bug): for a remote model whose file exists locally,
`refreshModel` sets "ToDownload" when the remote `updatedAt` is greater and
"Synced" when the timestamps are equal, appending the entry to the rebuilt
list — but when the local modification time is greater the statement
`model.status = "ToUpload"` assigns an attribute on a dict and raises
`AttributeError` instead of recording "ToUpload". -/
theorem c1_refresh_timestamp_classification :
    refreshModelRun [⟨"a.fcstd", 10⟩] "/ws" [⟨"a.fcstd", false, 0, 5, true⟩]
      = .ok ([⟨"a.fcstd", 10, "ToDownload"⟩],
             [.rmodel ⟨"a.fcstd", 10, "ToDownload"⟩]) ∧
    refreshModelRun [⟨"a.fcstd", 5⟩] "/ws" [⟨"a.fcstd", false, 0, 5, true⟩]
      = .ok ([⟨"a.fcstd", 5, "Synced"⟩], [.rmodel ⟨"a.fcstd", 5, "Synced"⟩]) ∧
    refreshModelRun [⟨"a.fcstd", 5⟩] "/ws" [⟨"a.fcstd", false, 0, 10, true⟩]
      = .error (.attributeError "dict object has no attribute status") :=
  ⟨rfl, rfl, rfl⟩

/-- C4 (code bug): a local non-folder file matching no remote model is
given status "ToUpload" and appended to the `models` list, but the rebuilt
`files` list assigned to `self.files` — the list the UI reads — stays
empty, so the entry never appears in the File Entry list. -/
theorem c4_local_only_file_missing_from_ui_list :
    refreshModelRun [] "/ws" [⟨"b.fcstd", false, 3, 5, true⟩]
      = .ok ([], [.fitem ⟨"b.fcstd", "/ws/b.fcstd", false, ["b.fcstd"],
                          "b.fcstd", some 3, some 5, "ToUpload"⟩]) :=
  rfl

/-- C2: invoking an `authRequired` operation while no access token is held
triggers exactly one `authenticate` call before the operation body runs,
and when no stored email credential is available that call raises
`APIClientLoggedOutException` before any query — authentication POST or
operation query — is sent. -/
theorem c2_auth_required_gate (st : ClientState) (net : PostNet)
    (probe reprobe : ProbeOutcome)
    (op : ClientState → Except PyExc Value × ClientState)
    (hTok : optStrFalsy st.access_token = true) :
    (authRequiredRun st net probe reprobe op).authAttempts = 1 ∧
    (optStrFalsy st.email = true →
      (authRequiredRun st net probe reprobe op).result
          = Except.error PyExc.loggedOut ∧
      (authRequiredRun st net probe reprobe op).opInvoked = false ∧
      (authRequiredRun st net probe reprobe op).authPosts = 0) := by
  constructor
  · rcases hA : authenticateRun st net probe reprobe with ⟨oe, st1, posts⟩
    cases oe <;> simp [authRequiredRun, hTok, hA]
  · intro hEmail
    have hA : authenticateRun st net probe reprobe
        = ⟨some PyExc.loggedOut, st, 0⟩ := by
      unfold authenticateRun
      rw [if_pos hEmail]
    refine ⟨?_, ?_, ?_⟩ <;> simp [authRequiredRun, hTok, hA]

theorem c2_auth_required_gate_witness :
    (authRequiredRun ⟨none, none, none, none, ConnStatus.LOGGED_OUT⟩
        PostNet.netErr ProbeOutcome.ok ProbeOutcome.ok
        (fun s => (Except.ok Value.vnone, s))).result
      = Except.error PyExc.loggedOut :=
  ((c2_auth_required_gate ⟨none, none, none, none, ConnStatus.LOGGED_OUT⟩
      PostNet.netErr ProbeOutcome.ok ProbeOutcome.ok
      (fun s => (Except.ok Value.vnone, s)) rfl).2 rfl).1

/-- C3 counterexample: `_delete` invoked while the state is DISCONNECTED
performs no re-probe and no offline failure — it issues the network request
directly (here it even succeeds), contradicting the claim that every verb
fails with the offline error before any network request. -/
theorem c3_counterexample_delete_skips_precheck :
    deleteRun sampleDisconnected "models/1" (some ⟨200, "", Value.vnone⟩)
        ProbeOutcome.errNoResp
      = ⟨.ok Value.vnone, sampleDisconnected, 0, 1⟩ :=
  rfl

/-- C3 amended: for GET, POST and PATCH (but not DELETE, which has no
precheck), invocation in the DISCONNECTED state performs exactly one
re-probe, and when the state is still DISCONNECTED afterwards the call
fails with the offline error with zero network requests issued. -/
theorem c3_amended_precheck_get_post_patch (st : ClientState)
    (endpoint : String) (net : Option Resp) (probe reprobe : ProbeOutcome)
    (hDis : st.status = ConnStatus.DISCONNECTED)
    (hStill : (confirmOnline st probe).status = ConnStatus.DISCONNECTED) :
    requestRun st endpoint net probe reprobe
      = ⟨.error .offline, confirmOnline st probe, 1, 0⟩ ∧
    postRun st endpoint net probe reprobe
      = ⟨.error .offline, confirmOnline st probe, 1, 0⟩ ∧
    updateRun st endpoint net probe reprobe
      = ⟨.error .offline, confirmOnline st probe, 1, 0⟩ := by
  unfold requestRun postRun updateRun properlyThrowRun
  simp [hDis, hStill]

theorem c3_amended_precheck_witness :
    requestRun sampleDisconnected "models" none ProbeOutcome.errNoResp
        ProbeOutcome.ok
      = ⟨.error .offline,
         confirmOnline sampleDisconnected ProbeOutcome.errNoResp, 1, 0⟩ :=
  (c3_amended_precheck_get_post_patch sampleDisconnected "models" none
    ProbeOutcome.errNoResp ProbeOutcome.ok rfl rfl).1

/-- C5: the result-wrapping helper is total over the whole exception
taxonomy — an offline exception yields `(None, DISCONNECTED)`, a logged-out
exception `NOT_LOGGED_IN`, an authentication exception `PERMISSION_ISSUE`,
every other failure `GENERAL_ERROR` — and the returned value is `None`
whenever the result code is not OK. -/
theorem c5_result_wrapper_classification :
    (∀ v : Value, fancy_auth_call (Except.ok v) = (some v, APICallResult.OK)) ∧
    fancy_auth_call (α := Value) (.error .offline)
      = (none, APICallResult.DISCONNECTED) ∧
    fancy_auth_call (α := Value) (.error .loggedOut)
      = (none, APICallResult.NOT_LOGGED_IN) ∧
    fancy_auth_call (α := Value) (.error .authn)
      = (none, APICallResult.PERMISSION_ISSUE) ∧
    (∀ msg, fancy_auth_call (α := Value) (.error (.request msg))
      = (none, APICallResult.GENERAL_ERROR)) ∧
    (∀ msg, fancy_auth_call (α := Value) (.error (.notFound msg))
      = (none, APICallResult.GENERAL_ERROR)) ∧
    fancy_auth_call (α := Value) (.error .connErr)
      = (none, APICallResult.GENERAL_ERROR) ∧
    fancy_auth_call (α := Value) (.error .tierErr)
      = (none, APICallResult.GENERAL_ERROR) ∧
    fancy_auth_call (α := Value) (.error .baseExc)
      = (none, APICallResult.GENERAL_ERROR) ∧
    fancy_auth_call (α := Value) (.error .genericExc)
      = (none, APICallResult.GENERAL_ERROR) ∧
    (∀ op : Except PyExc Value,
      (fancy_auth_call op).1 = none ∨
      (fancy_auth_call op).2 = APICallResult.OK) := by
  refine ⟨fun v => rfl, rfl, rfl, rfl, fun msg => rfl, fun msg => rfl,
    rfl, rfl, rfl, rfl, fun op => ?_⟩
  cases op with
  | ok v => exact Or.inr rfl
  | error e => cases e <;> exact Or.inl rfl

/-- C6 counterexample: a PATCH (`_update`) response with status 401 raises
the generic `APIClientRequestException`, not
`APIClientAuthenticationException`, contradicting the claim for the PATCH
verb (the same holds for DELETE). -/
theorem c6_counterexample_patch_401_is_generic :
    updateHandle "file/f1" ⟨401, "not allowed", Value.vnone⟩
      = .error (.request
          "API request failed with status code 401: not allowed") ∧
    updateHandle "file/f1" ⟨401, "not allowed", Value.vnone⟩
      ≠ .error PyExc.authn :=
  ⟨rfl, fun h => PyExc.noConfusion (Except.error.inj h)⟩

/-- C6 amended: GET and POST map a 401 response to the authentication
error while PATCH and DELETE classify it as the generic request error; all
four verbs map 404 to the not-found error carrying the endpoint, and every
other non-success status to the request error carrying the status code and
the server-supplied message. -/
theorem c6_amended_status_mapping_per_verb (endpoint : String) (r : Resp) :
    (r.status_code = 401 →
      requestHandle endpoint r = .error .authn ∧
      postHandle endpoint r = .error .authn ∧
      updateHandle endpoint r = .error (.request (raiseExceptionMsg r)) ∧
      deleteHandle endpoint r = .error (.request (raiseExceptionMsg r))) ∧
    (r.status_code = 404 →
      requestHandle endpoint r
        = .error (.notFound ("item not found " ++ endpoint)) ∧
      postHandle endpoint r
        = .error (.notFound ("item not found " ++ endpoint)) ∧
      updateHandle endpoint r
        = .error (.notFound ("item not found " ++ endpoint)) ∧
      deleteHandle endpoint r
        = .error (.notFound ("item not found " ++ endpoint))) ∧
    (r.status_code ≠ 200 → r.status_code ≠ 201 → r.status_code ≠ 401 →
     r.status_code ≠ 404 →
      requestHandle endpoint r = .error (.request (raiseExceptionMsg r)) ∧
      postHandle endpoint r = .error (.request (raiseExceptionMsg r)) ∧
      updateHandle endpoint r = .error (.request (raiseExceptionMsg r)) ∧
      deleteHandle endpoint r = .error (.request (raiseExceptionMsg r))) := by
  refine ⟨fun h => ?_, fun h => ?_, fun h1 h2 h3 h4 => ?_⟩
  · simp [requestHandle, postHandle, updateHandle, deleteHandle,
      okCode, createdCode, unauthorizedCode, notFoundCode, h]
  · simp [requestHandle, postHandle, updateHandle, deleteHandle,
      okCode, createdCode, unauthorizedCode, notFoundCode, h]
  · simp [requestHandle, postHandle, updateHandle, deleteHandle,
      okCode, createdCode, unauthorizedCode, notFoundCode, h1, h2, h3, h4]

theorem c6_amended_status_mapping_witness :
    updateHandle "file/f1" ⟨404, "m", Value.vnone⟩
      = .error (.notFound "item not found file/f1") :=
  ((c6_amended_status_mapping_per_verb "file/f1"
      ⟨404, "m", Value.vnone⟩).2.1 rfl).2.2.1

/-- C7 counterexample: constructing the client with an access token but no
user record (the constructor's default) yields a reachable CONNECTED state
with `user = None`, contradicting the claim that CONNECTED implies a user
record is present. -/
theorem c7_counterexample_connected_without_user :
    (clientInit none none (some "tok") none).status = ConnStatus.CONNECTED ∧
    (clientInit none none (some "tok") none).user = none :=
  ⟨rfl, rfl⟩

/-- C7 amended: provided every construction that supplies an access token
also supplies a user record, then in every reachable state (construction,
logout, online probe, authentication flow) CONNECTED implies both an access
token and a user record are present, and LOGGED_OUT implies no token is
held. -/
theorem c7_amended_connection_state_invariant (st : ClientState)
    (h : ReachableG st) :
    (st.status = ConnStatus.CONNECTED →
      st.access_token ≠ none ∧ st.user ≠ none) ∧
    (st.status = ConnStatus.LOGGED_OUT → st.access_token = none) := by
  obtain ⟨h1, h2, h3⟩ := stateInv_of_reachable h
  refine ⟨fun hc => ?_, h3⟩
  have ht := h2 hc
  exact ⟨Option.isSome_iff_ne_none.mp ht,
    Option.isSome_iff_ne_none.mp (h1 ht)⟩

theorem c7_amended_connection_state_invariant_witness :
    (clientInit (some "u@example.com") (some "pw") none none).access_token
      = none :=
  (c7_amended_connection_state_invariant _
    (ReachableG.init (some "u@example.com") (some "pw") none none
      (Or.inl rfl))).2 rfl

/-- C8 counterexample: when the probe raises an exception that carries a
response, `_confirm_online` leaves the previous status untouched, so
`getStatus()` returns the stale CONNECTED even though the probe failed. -/
theorem c8_counterexample_stale_connected :
    (getStatusRun sampleConnected ProbeOutcome.errResp).1
      = ConnStatus.CONNECTED :=
  rfl

/-- C8 amended: `getStatus()` performs exactly one fresh probe on every
call, and when the probe fails with no response attached (a network-level
failure) the returned status is DISCONNECTED, never a stale CONNECTED; only
a probe failure that carries a response leaves the prior status. -/
theorem c8_amended_getStatus_fresh_probe :
    (∀ (st : ClientState) (probe : ProbeOutcome),
      (getStatusRun st probe).2.2 = 1) ∧
    (∀ st : ClientState,
      (getStatusRun st ProbeOutcome.errNoResp).1 = ConnStatus.DISCONNECTED) :=
  ⟨fun _ _ => rfl, fun _ => rfl⟩

/-- C9 counterexample: a 404 on the public file-version query raises
`APIClientNotFoundException`, which the `except APIClientRequestException`
clause does not catch — the exception propagates with no fallback attempt,
even though the authenticated fetch would have succeeded. -/
theorem c9_counterexample_404_no_fallback :
    getFileVersionDetailsFetch true ⟨404, "", Value.vnone⟩
        ⟨200, "", Value.vdict []⟩ "f1"
      = ⟨.error (.notFound "item not found file/f1"), [true]⟩ :=
  rfl

/-- C9 amended: a 404 on the public query propagates the not-found
exception immediately with no fallback; the single authenticated fallback
for the same resource without the public parameter happens when the public
attempt fails with the generic request error, and if that fallback returns
404 the not-found exception propagates to the caller. -/
theorem c9_amended_public_fallback (pubResp privResp : Resp)
    (fileId : String) :
    (pubResp.status_code = 404 →
      getFileVersionDetailsFetch true pubResp privResp fileId
        = ⟨.error (.notFound ("item not found " ++ ("file/" ++ fileId))),
           [true]⟩) ∧
    (pubResp.status_code ≠ 200 → pubResp.status_code ≠ 401 →
     pubResp.status_code ≠ 404 →
      (getFileVersionDetailsFetch true pubResp privResp fileId).attempts
        = [true, false] ∧
      (privResp.status_code = 404 →
        (getFileVersionDetailsFetch true pubResp privResp fileId).result
          = .error (.notFound ("item not found " ++ ("file/" ++ fileId))))) := by
  refine ⟨fun h => ?_, fun h1 h2 h3 => ⟨?_, fun h4 => ?_⟩⟩ <;>
    simp [getFileVersionDetailsFetch, requestHandle, okCode,
      unauthorizedCode, notFoundCode, raiseExceptionMsg, *]

theorem c9_amended_public_fallback_witness :
    (getFileVersionDetailsFetch true ⟨400, "bad", Value.vnone⟩
        ⟨404, "", Value.vnone⟩ "f1").attempts = [true, false] :=
  ((c9_amended_public_fallback ⟨400, "bad", Value.vnone⟩
      ⟨404, "", Value.vnone⟩ "f1").2
    (by decide) (by decide) (by decide)).1

end OndselLens
